import Mathlib

/-!
Shallow embedding of `src/accounting_app.py` (Abdul84-stack/accounting-app):
a single-session accounting workbook.  Session state holds receivable and
payable records, an inventory table, a fixed-asset register and a general
ledger (GL).  Posting operations append balanced debit/credit entries to the
GL; statement generators are pure aggregations over the GL; analytics
(ratios, forecast) operate on uploaded Item/Amount snapshots.

Monetary amounts are embedded as rationals (`ℚ`): the Python source computes
with IEEE floats, and the spec's 0.01 tolerances exist solely to absorb float
noise; in exact rational arithmetic the corresponding identities are exact.
-/

namespace AccountingApp

/-- A calendar date; only the year is inspected by the program logic
(the depreciation once-per-year guard), the rest is carried opaquely. -/
structure Date where
  year : Int
  month : Nat
  day : Nat
deriving DecidableEq

/-- Outcome tag returned by mutating operations (`'success'`, `'error'`,
`'warning'` strings in the source). -/
inductive Status where
  | success
  | error
  | warning
deriving DecidableEq

/-- One general-ledger row: columns Date, Account, Debit, Credit, Description. -/
structure GLEntry where
  date : Date
  account : String
  debit : ℚ
  credit : ℚ
  description : String
deriving DecidableEq

/-- One receivables row: Date, Customer, Type ('Cash'/'Credit'), Amount, Description. -/
structure ReceivableRecord where
  date : Date
  customer : String
  recordType : String
  amount : ℚ
  description : String
deriving DecidableEq

/-- One payables row: Date, Vendor/Category, Amount, Description. -/
structure PayableRecord where
  date : Date
  vendorCategory : String
  amount : ℚ
  description : String
deriving DecidableEq

/-- One inventory row: Item, Quantity (int dtype), Unit Cost, Selling Price,
Last Updated (a formatted timestamp string). -/
structure InventoryItem where
  item : String
  quantity : Int
  unitCost : ℚ
  sellingPrice : ℚ
  lastUpdated : String
deriving DecidableEq

/-- One fixed-asset row of the register. -/
structure FixedAsset where
  assetTag : String
  assetName : String
  category : String
  location : String
  acquisitionDate : Date
  cost : ℚ
  salvageValue : ℚ
  usefulLife : Int
  accumulatedDepreciation : ℚ
deriving DecidableEq

/-- The whole `st.session_state`: the four record stores plus the GL. -/
structure SessionState where
  receivables : List ReceivableRecord
  payables : List PayableRecord
  inventory : List InventoryItem
  fixed_assets : List FixedAsset
  general_ledger : List GLEntry
deriving DecidableEq

/-- The freshly initialized session: every table empty. -/
def emptyState : SessionState :=
  { receivables := [], payables := [], inventory := [],
    fixed_assets := [], general_ledger := [] }

/-- The apostrophe character, kept out of string literals. -/
def apos : String := String.singleton (Char.ofNat 39)

/-- The balance-sheet equity label used by the source
(`Owner's Equity (Simplified)`). -/
def ownersEquityLabel : String := "Owner" ++ apos ++ "s Equity (Simplified)"

/-- Does `pat` start the character list `s`? -/
def headMatches : List Char → List Char → Bool
  | [], _ => true
  | _ :: _, [] => false
  | a :: as, b :: bs => a == b && headMatches as bs

/-- Does `pat` occur contiguously inside the character list `s`? -/
def hasSub (pat : List Char) : List Char → Bool
  | [] => headMatches pat []
  | c :: cs => headMatches pat (c :: cs) || hasSub pat cs

/-- Python `sub in s` / `Series.str.contains` (plain, case-sensitive
substring test over the string's characters). -/
def strContains (s pat : String) : Bool := hasSub pat.data s.data

/-- Update the first element satisfying `p` (pandas `.loc[idx]` where `idx`
is the first matching index), leaving the rest untouched. -/
def updateFirst (p : α → Bool) (f : α → α) : List α → List α
  | [] => []
  | x :: xs => if p x then f x :: xs else x :: updateFirst p f xs

/-- `post_to_gl`: append one entry to the general ledger. -/
def post_to_gl (s : SessionState) (date : Date) (account : String)
    (debit credit : ℚ) (description : String) : SessionState :=
  { s with general_ledger :=
      s.general_ledger ++ [⟨date, account, debit, credit, description⟩] }

/-- `add_receivable_record`: append the receivable row, then post the two GL
legs (Cash or Accounts Receivable debit; Sales Revenue credit). -/
def add_receivable_record (s : SessionState) (date : Date)
    (customer recordType : String) (amount : ℚ) (description : String) :
    SessionState :=
  let s1 := { s with receivables :=
      s.receivables ++ [⟨date, customer, recordType, amount, description⟩] }
  if recordType = "Cash" then
    let m := "Cash Sale to " ++ customer ++ ": " ++ description
    post_to_gl (post_to_gl s1 date "Cash" amount 0 m) date "Sales Revenue" 0 amount m
  else
    let m := "Credit Sale to " ++ customer ++ ": " ++ description
    post_to_gl (post_to_gl s1 date "Accounts Receivable" amount 0 m)
      date "Sales Revenue" 0 amount m

/-- `add_payable_record`: append the payable row, then post Expenses debit
and Cash credit (immediate cash settlement). -/
def add_payable_record (s : SessionState) (date : Date)
    (vendorCategory : String) (amount : ℚ) (description : String) :
    SessionState :=
  let s1 := { s with payables :=
      s.payables ++ [⟨date, vendorCategory, amount, description⟩] }
  let s2 := post_to_gl s1 date "Expenses" amount 0
      ("Expense: " ++ vendorCategory ++ " - " ++ description)
  post_to_gl s2 date "Cash" 0 amount
      ("Cash Payment for " ++ vendorCategory ++ ": " ++ description)

/-- `add_sale_record`: POS sale.  Rejects an unknown item or an order above
the available quantity; otherwise decrements the (first) matching inventory
row, refreshes its timestamp and posts the four GL legs. -/
def add_sale_record (s : SessionState) (date : Date) (item : String)
    (quantity : Int) (customer saleType now : String) :
    SessionState × Status × String :=
  match s.inventory.find? (fun r => r.item == item) with
  | none => (s, Status.error, "Item not found in inventory.")
  | some itemRow =>
    if quantity > itemRow.quantity then
      (s, Status.error,
        "Not enough stock. Only " ++ toString itemRow.quantity ++ " units available.")
    else
      let total_sales_revenue : ℚ := (quantity : ℚ) * itemRow.sellingPrice
      let cost_of_goods_sold : ℚ := (quantity : ℚ) * itemRow.unitCost
      let inv' :=
        updateFirst (fun r => r.item == item)
          (fun r => { r with quantity := r.quantity - quantity, lastUpdated := now })
          s.inventory
      let s1 := { s with inventory := inv' }
      let qs := toString quantity
      let s2 :=
        if saleType = "Cash" then
          post_to_gl s1 date "Cash" total_sales_revenue 0
            ("Cash Sale of " ++ qs ++ " units of " ++ item ++ " to " ++ customer)
        else
          post_to_gl s1 date "Accounts Receivable" total_sales_revenue 0
            ("Credit Sale of " ++ qs ++ " units of " ++ item ++ " to " ++ customer)
      let s3 := post_to_gl s2 date "Sales Revenue" 0 total_sales_revenue
          ("Sale of " ++ qs ++ " units of " ++ item ++ " to " ++ customer)
      let s4 := post_to_gl s3 date "Cost of Goods Sold" cost_of_goods_sold 0
          ("COGS for " ++ qs ++ " units of " ++ item ++ " sold to " ++ customer)
      let s5 := post_to_gl s4 date "Inventory" 0 cost_of_goods_sold
          ("Inventory reduction for " ++ qs ++ " units of " ++ item ++ " sold to " ++ customer)
      (s5, Status.success, "Sale recorded successfully and inventory updated!")

/-- `generate_asset_tag`: COMPANY-CATEGORY-YEAR-LOCATION, upper-cased. -/
def generate_asset_tag (company category : String) (year : Int)
    (location : String) : String :=
  company.toUpper ++ "-" ++ category.toUpper ++ "-" ++ toString year ++ "-" ++ location.toUpper

/-- The fixed-asset form handler: after its validation gate
(`asset_name and cost > 0 and useful_life > 0 and category and location`)
it appends the register row with accumulated depreciation 0 and posts
the Fixed Assets debit / Cash credit pair; otherwise it is a no-op. -/
def add_fixed_asset (s : SessionState) (assetName category location : String)
    (acquisitionDate : Date) (cost salvageValue : ℚ) (usefulLife : Int) :
    SessionState :=
  if assetName ≠ "" ∧ cost > 0 ∧ usefulLife > 0 ∧ category ≠ "" ∧ location ≠ "" then
    let tag := generate_asset_tag "YOUR_COMPANY" category acquisitionDate.year location
    let s1 := { s with fixed_assets := s.fixed_assets ++
        [⟨tag, assetName, category, location, acquisitionDate, cost, salvageValue,
          usefulLife, 0⟩] }
    let s2 := post_to_gl s1 acquisitionDate "Fixed Assets" cost 0
        ("Acquisition of " ++ assetName ++ " (" ++ tag ++ ")")
    post_to_gl s2 acquisitionDate "Cash" 0 cost
        ("Cash payment for " ++ assetName)
  else s

/-- The inventory form handler: after its validation gate, overwrite the
first row carrying the item name (quantity, cost, price, timestamp) if one
exists, else append a fresh row; invalid input is a no-op. -/
def add_or_update_inventory (s : SessionState) (itemName : String)
    (quantity : Int) (unitCost sellingPrice : ℚ) (now : String) :
    SessionState :=
  if itemName ≠ "" ∧ quantity ≥ 0 ∧ unitCost ≥ 0 ∧ sellingPrice ≥ 0 then
    if s.inventory.any (fun r => r.item == itemName) then
      let inv' :=
        updateFirst (fun r => r.item == itemName)
          (fun r =>
            { r with quantity := quantity, unitCost := unitCost,
                     sellingPrice := sellingPrice, lastUpdated := now })
          s.inventory
      { s with inventory := inv' }
    else
      { s with inventory := s.inventory ++
          [⟨itemName, quantity, unitCost, sellingPrice, now⟩] }
  else s

/-- The body of the depreciation loop: walk the register in order; for each
asset with useful life > 0 emit the Depreciation Expense debit /
Accumulated Depreciation credit pair of `(cost − salvage)/life` and bump the
asset's accumulated depreciation; other assets pass through untouched.
Returns (entries to append, updated register). -/
def depreciateAll (date : Date) : List FixedAsset → List GLEntry × List FixedAsset
  | [] => ([], [])
  | a :: rest =>
    let r := depreciateAll date rest
    if a.usefulLife > 0 then
      let annual : ℚ := (a.cost - a.salvageValue) / (a.usefulLife : ℚ)
      let m := "Annual depreciation for " ++ a.assetName
      (⟨date, "Depreciation Expense", annual, 0, m⟩ ::
       ⟨date, "Accumulated Depreciation", 0, annual, m⟩ :: r.1,
       { a with accumulatedDepreciation := a.accumulatedDepreciation + annual } :: r.2)
    else (r.1, a :: r.2)

/-- Does the GL already hold a Depreciation Expense entry dated in `year`? -/
def deprAlreadyPosted (gl : List GLEntry) (year : Int) : Bool :=
  gl.any (fun e => e.account == "Depreciation Expense" && e.date.year == year)

/-- `calculate_and_post_depreciation`: warn when the register is empty, warn
when the year's depreciation is already on the GL, otherwise post one
balanced pair per asset with useful life > 0 and update the register. -/
def calculate_and_post_depreciation (s : SessionState) (date : Date) :
    SessionState × Status × String :=
  if s.fixed_assets = [] then
    (s, Status.warning, "No fixed assets to depreciate.")
  else if deprAlreadyPosted s.general_ledger date.year then
    (s, Status.warning,
      "Depreciation for " ++ toString date.year ++ " has already been posted.")
  else
    let r := depreciateAll date s.fixed_assets
    ({ s with general_ledger := s.general_ledger ++ r.1, fixed_assets := r.2 },
     Status.success,
     "Depreciation for " ++ toString date.year ++ " calculated and posted for all assets.")

/-- A labeled statement row (Item/Activity column plus Amount): the shape of
the internally generated income statement and cash-flow statement, and of the
uploaded Item/Amount snapshots the analytics consume. -/
structure StmtRow where
  item : String
  amount : ℚ
deriving DecidableEq

/-- A balance-sheet display row: Category, Account, Amount. -/
structure BSRow where
  category : String
  account : String
  amount : ℚ
deriving DecidableEq

/-- `gl[gl['Account'] == a]['Debit'].sum()`. -/
def acctD (gl : List GLEntry) (a : String) : ℚ :=
  ((gl.filter (fun e => e.account == a)).map (fun e => e.debit)).sum

/-- `gl[gl['Account'] == a]['Credit'].sum()`. -/
def acctC (gl : List GLEntry) (a : String) : ℚ :=
  ((gl.filter (fun e => e.account == a)).map (fun e => e.credit)).sum

/-- `generate_income_statement`: empty ledger yields the empty frame,
otherwise the six labeled lines derived from account-filtered sums. -/
def generate_income_statement (gl : List GLEntry) : List StmtRow :=
  if gl = [] then []
  else
    let revenue := acctC gl "Sales Revenue"
    let cogs := acctD gl "Cost of Goods Sold"
    let gross_profit := revenue - cogs
    let expenses := acctD gl "Expenses"
    let depreciation_expense := acctD gl "Depreciation Expense"
    let total_operating_expenses := expenses + depreciation_expense
    let net_income := gross_profit - total_operating_expenses
    [⟨"Sales Revenue", revenue⟩,
     ⟨"Less: Cost of Goods Sold", -cogs⟩,
     ⟨"Gross Profit", gross_profit⟩,
     ⟨"Less: Operating Expenses", -expenses⟩,
     ⟨"Less: Depreciation Expense", -depreciation_expense⟩,
     ⟨"Net Income (Loss)", net_income⟩]

/-- `generate_balance_sheet`: empty ledger yields the empty frame, otherwise
the ten display rows; equity is the income statement's bottom line. -/
def generate_balance_sheet (gl : List GLEntry) : List BSRow :=
  if gl = [] then []
  else
    let cash := acctD gl "Cash" - acctC gl "Cash"
    let accounts_receivable := acctD gl "Accounts Receivable" - acctC gl "Accounts Receivable"
    let inventory := acctD gl "Inventory" - acctC gl "Inventory"
    let fixed_assets_cost := acctD gl "Fixed Assets"
    let accumulated_depreciation := acctC gl "Accumulated Depreciation"
    let net_fixed_assets := fixed_assets_cost - accumulated_depreciation
    let total_current_assets := cash + accounts_receivable + inventory
    let total_assets := total_current_assets + net_fixed_assets
    let accounts_payable := acctC gl "Accounts Payable" - acctD gl "Accounts Payable"
    let net_income := (((generate_income_statement gl).getLast?).map (fun r => r.amount)).getD 0
    let total_equity := 0 + net_income
    let total_liabilities := accounts_payable
    let total_liabilities_equity := total_liabilities + total_equity
    [⟨"Current Assets", "Cash", cash⟩,
     ⟨"Current Assets", "Accounts Receivable", accounts_receivable⟩,
     ⟨"Current Assets", "Inventory", inventory⟩,
     ⟨"Total Current Assets", "", total_current_assets⟩,
     ⟨"Non-Current Assets", "Fixed Assets (Net)", net_fixed_assets⟩,
     ⟨"Total Assets", "", total_assets⟩,
     ⟨"Current Liabilities", "Accounts Payable", accounts_payable⟩,
     ⟨"Total Liabilities", "", total_liabilities⟩,
     ⟨"Equity", ownersEquityLabel, total_equity⟩,
     ⟨"Total Liabilities & Equity", "", total_liabilities_equity⟩]

/-- `generate_cash_flow_statement`: classifies Cash-account entries by memo
substring match ('Sale' → operating inflow, 'Payment' → operating outflow,
'Acquisition' → investing outflow). -/
def generate_cash_flow_statement (gl : List GLEntry) : List StmtRow :=
  if gl = [] then []
  else
    let cash_in_from_sales :=
      ((gl.filter (fun e => e.account == "Cash" && decide (e.debit > 0)
          && strContains e.description "Sale")).map (fun e => e.debit)).sum
    let cash_out_for_expenses :=
      ((gl.filter (fun e => e.account == "Cash" && decide (e.credit > 0)
          && strContains e.description "Payment")).map (fun e => e.credit)).sum
    let net_cash_operating := cash_in_from_sales - cash_out_for_expenses
    let cash_out_fixed_assets :=
      ((gl.filter (fun e => e.account == "Cash" && decide (e.credit > 0)
          && strContains e.description "Acquisition")).map (fun e => e.credit)).sum
    let net_cash_investing := -cash_out_fixed_assets
    let net_cash_financing : ℚ := 0
    let net_change := net_cash_operating + net_cash_investing + net_cash_financing
    let beginning_cash : ℚ := 0
    let ending_cash := beginning_cash + net_change
    [⟨"Net Cash from Operating Activities", net_cash_operating⟩,
     ⟨"Net Cash from Investing Activities", net_cash_investing⟩,
     ⟨"Net Cash from Financing Activities", net_cash_financing⟩,
     ⟨"Net Increase (Decrease) in Cash", net_change⟩,
     ⟨"Beginning Cash Balance", beginning_cash⟩,
     ⟨"Ending Cash Balance", ending_cash⟩]

/-- The first Amount found for the given Category in balance-sheet rows,
defaulting to 0 when absent (the consuming page's extraction idiom). -/
def bsAmount (rows : List BSRow) (cat : String) : ℚ :=
  (((rows.filter (fun r => r.category == cat)).map (fun r => r.amount)).headD 0)

/-- The first Amount found for the given Item/Activity label, defaulting
to 0 when absent. -/
def stmtAmount (rows : List StmtRow) (label : String) : ℚ :=
  (((rows.filter (fun r => r.item == label)).map (fun r => r.amount)).headD 0)

/-- `df[df['Item'] == label]['Amount'].sum()` over an uploaded snapshot. -/
def itemSum (df : List StmtRow) (label : String) : ℚ :=
  ((df.filter (fun r => r.item == label)).map (fun r => r.amount)).sum

/-- A ratio value: a finite rational or the Python `float('inf')` fallback. -/
inductive RVal where
  | fin (q : ℚ)
  | inf
deriving DecidableEq

/-- The dictionary produced by `calculate_ratios`. -/
structure Ratios where
  grossProfitMargin : RVal
  netProfitMargin : RVal
  currentRatio : RVal
  quickRatio : RVal
  debtToEquity : RVal
  arTurnoverDays : RVal
  returnOnAssets : RVal
  returnOnEquity : RVal
deriving DecidableEq

/-- `calculate_ratios` over uploaded Item/Amount snapshots.  Python float
truthiness (`if x else fallback`) becomes an `= 0` test; `float('inf')`
becomes `RVal.inf`. -/
def calculate_ratios (is_df bs_df : List StmtRow) : Ratios :=
  let revenue := itemSum is_df "Sales Revenue"
  let cogs := itemSum is_df "Cost of Goods Sold"
  let gross_profit := revenue - cogs
  let operating_expenses := itemSum is_df "Operating Expenses"
  let interest_expense := itemSum is_df "Interest Expense"
  let taxes := itemSum is_df "Taxes"
  let net_income := revenue - cogs - operating_expenses - interest_expense - taxes
  let cash := itemSum bs_df "Cash"
  let accounts_receivable := itemSum bs_df "Accounts Receivable"
  let inventory := itemSum bs_df "Inventory"
  let current_assets := cash + accounts_receivable + inventory
  let fixed_assets_net := itemSum bs_df "Fixed Assets (Net)"
  let total_assets := current_assets + fixed_assets_net
  let accounts_payable := itemSum bs_df "Accounts Payable"
  let current_liabilities := accounts_payable
  let long_term_debt :=
    if bs_df.any (fun r => r.item == "Long-term Debt")
    then itemSum bs_df "Long-term Debt" else 0
  let total_liabilities := current_liabilities + long_term_debt
  let owner_equity := itemSum bs_df ownersEquityLabel
  { grossProfitMargin := if revenue = 0 then .fin 0 else .fin (gross_profit / revenue),
    netProfitMargin := if revenue = 0 then .fin 0 else .fin (net_income / revenue),
    currentRatio :=
      if current_liabilities = 0 then .inf else .fin (current_assets / current_liabilities),
    quickRatio :=
      if current_liabilities = 0 then .inf
      else .fin ((current_assets - inventory) / current_liabilities),
    debtToEquity :=
      if owner_equity = 0 then .inf else .fin (total_liabilities / owner_equity),
    arTurnoverDays :=
      if accounts_receivable = 0 ∨ revenue = 0 then .fin 0
      else .fin (365 / (revenue / accounts_receivable)),
    returnOnAssets := if total_assets = 0 then .fin 0 else .fin (net_income / total_assets),
    returnOnEquity := if owner_equity = 0 then .fin 0 else .fin (net_income / owner_equity) }

/-- One forecasted income-statement row. -/
structure ForecastISRow where
  year : Int
  salesRevenue : ℚ
  costOfGoodsSold : ℚ
  grossProfit : ℚ
  operatingExpenses : ℚ
  netIncome : ℚ
deriving DecidableEq

/-- One forecasted balance-sheet row. -/
structure ForecastBSRow where
  year : Int
  cash : ℚ
  accountsReceivable : ℚ
  inventory : ℚ
  currentAssets : ℚ
  fixedAssetsNet : ℚ
  totalAssets : ℚ
  accountsPayable : ℚ
  ltDebt : ℚ
  totalLiabilities : ℚ
  ownerEquity : ℚ
  totalLiabilitiesEquity : ℚ
deriving DecidableEq

/-- The `prev_*` loop variables of `forecast_financials`. -/
structure FPrev where
  revenue : ℚ
  cogs : ℚ
  opExp : ℚ
  netIncome : ℚ
  cash : ℚ
  ar : ℚ
  inv : ℚ
  fixedAssetsNet : ℚ
  ap : ℚ
  ltDebt : ℚ
  ownerEquity : ℚ
deriving DecidableEq

/-- One iteration of the forecast loop: revenue compounds, COGS and
operating expenses are fixed percentages of revenue, receivables/inventory/
payables are fixed fractions, cash is the plug, fixed assets and long-term
debt carry forward, equity accretes net income. -/
def forecastStep (revenue_growth cogs_pct op_exp_pct : ℚ) (p : FPrev) : FPrev :=
  let proj_revenue := p.revenue * (1 + revenue_growth / 100)
  let proj_cogs := proj_revenue * (cogs_pct / 100)
  let proj_gross_profit := proj_revenue - proj_cogs
  let proj_op_exp := proj_revenue * (op_exp_pct / 100)
  let proj_net_income := proj_gross_profit - proj_op_exp
  let proj_ar := proj_revenue * (1/10)
  let proj_inv := proj_cogs * (1/20)
  let proj_ap := proj_cogs * (1/20)
  let proj_cash := p.cash + proj_net_income - (proj_ar - p.ar) - (proj_inv - p.inv) + (proj_ap - p.ap)
  { revenue := proj_revenue, cogs := proj_cogs, opExp := proj_op_exp,
    netIncome := proj_net_income, cash := proj_cash, ar := proj_ar,
    inv := proj_inv, fixedAssetsNet := p.fixedAssetsNet, ap := proj_ap,
    ltDebt := p.ltDebt, ownerEquity := p.ownerEquity + proj_net_income }

/-- The income-statement row written for a projected year. -/
def forecastISRowOf (y : Int) (p : FPrev) : ForecastISRow :=
  ⟨y, p.revenue, p.cogs, p.revenue - p.cogs, p.opExp, p.netIncome⟩

/-- The balance-sheet row written for a projected year. -/
def forecastBSRowOf (y : Int) (p : FPrev) : ForecastBSRow :=
  ⟨y, p.cash, p.ar, p.inv, p.cash + p.ar + p.inv, p.fixedAssetsNet,
   (p.cash + p.ar + p.inv) + p.fixedAssetsNet, p.ap, p.ltDebt, p.ap + p.ltDebt,
   p.ownerEquity, (p.ap + p.ltDebt) + p.ownerEquity⟩

/-- The forecast loop over the remaining year count (`i` is the offset of
the next projected year from the base year). -/
def forecastLoop (growth cogsP opP : ℚ) (nowYear : Int) :
    Nat → Int → FPrev → List ForecastISRow × List ForecastBSRow
  | 0, _, _ => ([], [])
  | k + 1, i, p =>
    let p' := forecastStep growth cogsP opP p
    let rest := forecastLoop growth cogsP opP nowYear k (i + 1) p'
    (forecastISRowOf (nowYear + i) p' :: rest.1,
     forecastBSRowOf (nowYear + i) p' :: rest.2)

/-- `forecast_financials`: `None` on an empty snapshot, otherwise the two
projected tables seeded from the uploaded baseline. -/
def forecast_financials (is_df bs_df : List StmtRow) (years : Nat)
    (revenue_growth cogs_pct op_exp_pct : ℚ) (nowYear : Int) :
    Option (List ForecastISRow × List ForecastBSRow) :=
  if is_df = [] ∨ bs_df = [] then none
  else
    let p0 : FPrev :=
      { revenue := itemSum is_df "Sales Revenue",
        cogs := itemSum is_df "Cost of Goods Sold",
        opExp := itemSum is_df "Operating Expenses",
        netIncome := itemSum is_df "Net Income (Loss)",
        cash := itemSum bs_df "Cash",
        ar := itemSum bs_df "Accounts Receivable",
        inv := itemSum bs_df "Inventory",
        fixedAssetsNet := itemSum bs_df "Fixed Assets (Net)",
        ap := itemSum bs_df "Accounts Payable",
        ltDebt :=
          if bs_df.any (fun r => r.item == "Long-term Debt")
          then itemSum bs_df "Long-term Debt" else 0,
        ownerEquity := itemSum bs_df ownersEquityLabel }
    some (forecastLoop revenue_growth cogs_pct op_exp_pct nowYear years 1 p0)

/-- A user-originated posting event, as dispatched by the pages. -/
inductive Op where
  | receivable (date : Date) (customer recordType : String) (amount : ℚ)
      (description : String)
  | payable (date : Date) (vendorCategory : String) (amount : ℚ)
      (description : String)
  | inventoryUpsert (itemName : String) (quantity : Int)
      (unitCost sellingPrice : ℚ) (now : String)
  | sale (date : Date) (item : String) (quantity : Int)
      (customer saleType now : String)
  | fixedAsset (assetName category location : String) (acquisitionDate : Date)
      (cost salvageValue : ℚ) (usefulLife : Int)
  | depreciationRun (date : Date)

/-- Apply one event to the session, including each page's validation gate;
a rejected event leaves the session untouched. -/
def applyOp (s : SessionState) : Op → SessionState
  | .receivable d c t a desc =>
      if c ≠ "" ∧ a > 0 then add_receivable_record s d c t a desc else s
  | .payable d v a desc =>
      if v ≠ "" ∧ a > 0 then add_payable_record s d v a desc else s
  | .inventoryUpsert n q uc sp now => add_or_update_inventory s n q uc sp now
  | .sale d i q c t now => (add_sale_record s d i q c t now).1
  | .fixedAsset n cat loc d k v u => add_fixed_asset s n cat loc d k v u
  | .depreciationRun d => (calculate_and_post_depreciation s d).1

/-- Run a sequence of events from the freshly initialized session. -/
def runOps (ops : List Op) : SessionState := ops.foldl applyOp emptyState

/-- Sum of the Debit column over the whole ledger. -/
def sumDebit (gl : List GLEntry) : ℚ := (gl.map (fun e => e.debit)).sum

/-- Sum of the Credit column over the whole ledger. -/
def sumCredit (gl : List GLEntry) : ℚ := (gl.map (fun e => e.credit)).sum

/-- Total debits minus total credits of a ledger. -/
def glBalance (gl : List GLEntry) : ℚ := sumDebit gl - sumCredit gl

/-- The income statement's bottom line as a scalar of the ledger. -/
def netIncomeQ (gl : List GLEntry) : ℚ :=
  acctC gl "Sales Revenue" - acctD gl "Cost of Goods Sold"
    - (acctD gl "Expenses" + acctD gl "Depreciation Expense")

/-- The balance-sheet Total Assets figure as a scalar of the ledger. -/
def totalAssetsQ (gl : List GLEntry) : ℚ :=
  ((acctD gl "Cash" - acctC gl "Cash")
    + (acctD gl "Accounts Receivable" - acctC gl "Accounts Receivable")
    + (acctD gl "Inventory" - acctC gl "Inventory"))
    + (acctD gl "Fixed Assets" - acctC gl "Accumulated Depreciation")

/-- The balance-sheet Total Liabilities & Equity figure as a scalar of the
ledger. -/
def totalLiabEquityQ (gl : List GLEntry) : ℚ :=
  (acctC gl "Accounts Payable" - acctD gl "Accounts Payable") + netIncomeQ gl

/-- The accounting-identity gap of a ledger: Total Assets minus Total
Liabilities & Equity. -/
def glGap (gl : List GLEntry) : ℚ := totalAssetsQ gl - totalLiabEquityQ gl

/-- The pair of GL entries one depreciation run posts for one asset. -/
def deprPair (d : Date) (a : FixedAsset) : List GLEntry :=
  let annual : ℚ := (a.cost - a.salvageValue) / (a.usefulLife : ℚ)
  let m := "Annual depreciation for " ++ a.assetName
  [⟨d, "Depreciation Expense", annual, 0, m⟩,
   ⟨d, "Accumulated Depreciation", 0, annual, m⟩]

/-- The register-side effect of one depreciation run on one asset. -/
def deprUpdate (a : FixedAsset) : FixedAsset :=
  if a.usefulLife > 0 then
    { a with accumulatedDepreciation :=
        a.accumulatedDepreciation + (a.cost - a.salvageValue) / (a.usefulLife : ℚ) }
  else a

/-- Run a sequence of annual depreciation runs (keeping only the state). -/
def runDeprs (s : SessionState) (ds : List Date) : SessionState :=
  ds.foldl (fun t d => (calculate_and_post_depreciation t d).1) s

/-- What any number of depreciation runs guarantees about one asset:
static fields are untouched, and accumulated depreciation never decreases
provided the asset's salvage value does not exceed its cost. -/
def deprPreserves (a b : FixedAsset) : Prop :=
  b.cost = a.cost ∧ b.salvageValue = a.salvageValue ∧
  b.usefulLife = a.usefulLife ∧
  (a.salvageValue ≤ a.cost →
    a.accumulatedDepreciation ≤ b.accumulatedDepreciation)

/-- What a single depreciation run does to one asset: static fields are
untouched and accumulated depreciation either stays or (for useful life
> 0) grows by exactly `(cost − salvage)/usefulLife`; under
salvage ≤ cost it cannot decrease. -/
def deprRunRel (a b : FixedAsset) : Prop :=
  b.cost = a.cost ∧ b.salvageValue = a.salvageValue ∧
  b.usefulLife = a.usefulLife ∧
  (b.accumulatedDepreciation = a.accumulatedDepreciation ∨
    (0 < a.usefulLife ∧
      b.accumulatedDepreciation = a.accumulatedDepreciation
        + (a.cost - a.salvageValue) / (a.usefulLife : ℚ))) ∧
  (a.salvageValue ≤ a.cost →
    a.accumulatedDepreciation ≤ b.accumulatedDepreciation)

/-- The balance-sheet identity gap of a forecast-loop state. -/
def fprevGap (p : FPrev) : ℚ :=
  (p.cash + p.ar + p.inv + p.fixedAssetsNet) - (p.ap + p.ltDebt + p.ownerEquity)

/-- The baseline identity gap of an uploaded balance-sheet snapshot. -/
def baselineGap (bs_df : List StmtRow) : ℚ :=
  (itemSum bs_df "Cash" + itemSum bs_df "Accounts Receivable"
      + itemSum bs_df "Inventory" + itemSum bs_df "Fixed Assets (Net)")
    - (itemSum bs_df "Accounts Payable" + itemSum bs_df "Long-term Debt"
        + itemSum bs_df ownersEquityLabel)

/-- No two inventory rows carry the same item name. -/
def invNamesDistinct (l : List InventoryItem) : Prop :=
  l.Pairwise (fun r r' => r.item ≠ r'.item)

/-! ### Concrete fixtures used by witnesses and counterexamples -/

/-- The year-1 income-statement row forecast from the Scenario 5 baseline
with 5% growth, COGS 40% and operating expenses 30% of revenue. -/
def exForecastISRow : ForecastISRow := ⟨2026, 1050, 420, 630, 315, 315⟩

/-- The matching year-1 balance-sheet row. -/
def exForecastBSRow : ForecastBSRow :=
  ⟨2026, 560, 105, 21, 686, 650, 1336, 21, 0, 21, 1315, 1336⟩

/-- A sample posting date. -/
def exDate : Date := ⟨2024, 6, 15⟩

/-- A sample inventory row: 7 Widgets costing 5, selling at 8. -/
def exItem : InventoryItem := ⟨"Widget", 7, 5, 8, "t0"⟩

/-- A session holding only that inventory row. -/
def invState : SessionState := { emptyState with inventory := [exItem] }

/-- A sample fixed asset: cost 1200, salvage 200, five-year life. -/
def exAsset : FixedAsset :=
  ⟨"YOUR_COMPANY-VEHICLE-2024-HQ", "Truck", "Vehicle", "HQ", exDate, 1200, 200, 5, 0⟩

/-- A session holding only that fixed asset. -/
def exAssetState : SessionState := { emptyState with fixed_assets := [exAsset] }

/-- A one-event history stocking 10 Widgets (cost 5, price 8). -/
def exOps7 : List Op := [Op.inventoryUpsert "Widget" 10 5 8 "t1"]

/-- Scenario 2 of the spec: stock 10 Widgets (cost 5, price 8), then
POS-sell 3 of them for cash. -/
def scenario2Ops : List Op :=
  [Op.inventoryUpsert "Widget" 10 5 8 "t1",
   Op.sale exDate "Widget" 3 "Bob" "Cash" "t2"]

/-- Scenario 5 of the spec: the uploaded income statement. -/
def scenario5IS : List StmtRow :=
  [⟨"Sales Revenue", 1000⟩, ⟨"Cost of Goods Sold", 400⟩]

/-- Scenario 5 of the spec: the uploaded balance sheet. -/
def scenario5BS : List StmtRow :=
  [⟨"Cash", 200⟩, ⟨"Accounts Receivable", 100⟩, ⟨"Inventory", 50⟩,
   ⟨"Fixed Assets (Net)", 650⟩, ⟨"Accounts Payable", 0⟩,
   ⟨ownersEquityLabel, 1000⟩]

end AccountingApp

namespace AccountingApp

/-! ## Basic ledger-aggregation lemmas -/

theorem sumDebit_append (gl l : List GLEntry) :
    sumDebit (gl ++ l) = sumDebit gl + sumDebit l := by
  simp [sumDebit]

theorem sumCredit_append (gl l : List GLEntry) :
    sumCredit (gl ++ l) = sumCredit gl + sumCredit l := by
  simp [sumCredit]

theorem sumDebit_cons (e : GLEntry) (gl : List GLEntry) :
    sumDebit (e :: gl) = e.debit + sumDebit gl := by
  simp [sumDebit]

theorem sumCredit_cons (e : GLEntry) (gl : List GLEntry) :
    sumCredit (e :: gl) = e.credit + sumCredit gl := by
  simp [sumCredit]

theorem acctD_append (gl l : List GLEntry) (a : String) :
    acctD (gl ++ l) a = acctD gl a + acctD l a := by
  simp [acctD]

theorem acctC_append (gl l : List GLEntry) (a : String) :
    acctC (gl ++ l) a = acctC gl a + acctC l a := by
  simp [acctC]

theorem acctD_cons (e : GLEntry) (gl : List GLEntry) (a : String) :
    acctD (e :: gl) a = (if e.account == a then e.debit else 0) + acctD gl a := by
  by_cases h : e.account == a <;> simp [acctD, List.filter_cons, h]

theorem acctC_cons (e : GLEntry) (gl : List GLEntry) (a : String) :
    acctC (e :: gl) a = (if e.account == a then e.credit else 0) + acctC gl a := by
  by_cases h : e.account == a <;> simp [acctC, List.filter_cons, h]

theorem acctD_nil (a : String) : acctD [] a = 0 := rfl

theorem acctC_nil (a : String) : acctC [] a = 0 := rfl

theorem glBalance_append (gl l : List GLEntry) :
    glBalance (gl ++ l) = glBalance gl + glBalance l := by
  simp [glBalance, sumDebit_append, sumCredit_append]; ring

theorem netIncomeQ_append (gl l : List GLEntry) :
    netIncomeQ (gl ++ l) = netIncomeQ gl + netIncomeQ l := by
  simp [netIncomeQ, acctD_append, acctC_append]; ring

theorem totalAssetsQ_append (gl l : List GLEntry) :
    totalAssetsQ (gl ++ l) = totalAssetsQ gl + totalAssetsQ l := by
  simp [totalAssetsQ, acctD_append, acctC_append]; ring

theorem totalLiabEquityQ_append (gl l : List GLEntry) :
    totalLiabEquityQ (gl ++ l) = totalLiabEquityQ gl + totalLiabEquityQ l := by
  simp [totalLiabEquityQ, netIncomeQ_append, acctD_append, acctC_append]; ring

theorem glGap_append (gl l : List GLEntry) :
    glGap (gl ++ l) = glGap gl + glGap l := by
  simp [glGap, totalAssetsQ_append, totalLiabEquityQ_append]; ring

theorem sumDebit_nil : sumDebit [] = 0 := rfl

theorem sumCredit_nil : sumCredit [] = 0 := rfl

/-! ## Each posting operation preserves ledger balance and the
balance-sheet identity gap -/

theorem glBalance_add_receivable (s : SessionState) (d : Date) (c t : String)
    (a : ℚ) (m : String) :
    glBalance (add_receivable_record s d c t a m).general_ledger
      = glBalance s.general_ledger := by
  unfold add_receivable_record
  split <;>
    simp [post_to_gl, glBalance, sumDebit_append, sumCredit_append,
          sumDebit_cons, sumCredit_cons, sumDebit_nil, sumCredit_nil]

theorem glGap_add_receivable (s : SessionState) (d : Date) (c t : String)
    (a : ℚ) (m : String) :
    glGap (add_receivable_record s d c t a m).general_ledger
      = glGap s.general_ledger := by
  unfold add_receivable_record
  split <;>
    simp [post_to_gl, glGap, totalAssetsQ, totalLiabEquityQ, netIncomeQ,
          acctD_append, acctC_append, acctD_cons, acctC_cons, acctD_nil,
          acctC_nil] <;>
    ring

theorem glBalance_add_payable (s : SessionState) (d : Date) (v : String)
    (a : ℚ) (m : String) :
    glBalance (add_payable_record s d v a m).general_ledger
      = glBalance s.general_ledger := by
  unfold add_payable_record
  simp [post_to_gl, glBalance, sumDebit_append, sumCredit_append,
        sumDebit_cons, sumCredit_cons, sumDebit_nil, sumCredit_nil]

theorem glGap_add_payable (s : SessionState) (d : Date) (v : String)
    (a : ℚ) (m : String) :
    glGap (add_payable_record s d v a m).general_ledger
      = glGap s.general_ledger := by
  unfold add_payable_record
  simp [post_to_gl, glGap, totalAssetsQ, totalLiabEquityQ, netIncomeQ,
        acctD_append, acctC_append, acctD_cons, acctC_cons, acctD_nil,
        acctC_nil]
  ring

theorem glBalance_add_sale (s : SessionState) (d : Date) (i : String)
    (q : Int) (c t now : String) :
    glBalance (add_sale_record s d i q c t now).1.general_ledger
      = glBalance s.general_ledger := by
  unfold add_sale_record
  split
  · rfl
  · split
    · rfl
    · split <;>
        simp [post_to_gl, glBalance, sumDebit_append, sumCredit_append,
              sumDebit_cons, sumCredit_cons, sumDebit_nil, sumCredit_nil]

theorem glGap_add_sale (s : SessionState) (d : Date) (i : String)
    (q : Int) (c t now : String) :
    glGap (add_sale_record s d i q c t now).1.general_ledger
      = glGap s.general_ledger := by
  unfold add_sale_record
  split
  · rfl
  · split
    · rfl
    · split <;>
        simp [post_to_gl, glGap, totalAssetsQ, totalLiabEquityQ, netIncomeQ,
              acctD_append, acctC_append, acctD_cons, acctC_cons, acctD_nil,
              acctC_nil] <;>
        ring

theorem glBalance_add_fixed_asset (s : SessionState) (n cat loc : String)
    (d : Date) (k v : ℚ) (u : Int) :
    glBalance (add_fixed_asset s n cat loc d k v u).general_ledger
      = glBalance s.general_ledger := by
  unfold add_fixed_asset
  split
  · simp [post_to_gl, glBalance, sumDebit_append, sumCredit_append,
          sumDebit_cons, sumCredit_cons, sumDebit_nil, sumCredit_nil]
  · rfl

theorem glGap_add_fixed_asset (s : SessionState) (n cat loc : String)
    (d : Date) (k v : ℚ) (u : Int) :
    glGap (add_fixed_asset s n cat loc d k v u).general_ledger
      = glGap s.general_ledger := by
  unfold add_fixed_asset
  split
  · simp [post_to_gl, glGap, totalAssetsQ, totalLiabEquityQ, netIncomeQ,
          acctD_append, acctC_append, acctD_cons, acctC_cons, acctD_nil,
          acctC_nil]
    ring
  · rfl

theorem deprBatch_balance (d : Date) (l : List FixedAsset) :
    glBalance (depreciateAll d l).1 = 0 := by
  induction l with
  | nil =>
    simp [depreciateAll, glBalance, sumDebit_nil, sumCredit_nil]
  | cons a rest ih =>
    by_cases h : a.usefulLife > 0 <;>
      simp [depreciateAll, h, glBalance, sumDebit_cons, sumCredit_cons] at ih ⊢ <;>
      linarith

theorem deprBatch_gap (d : Date) (l : List FixedAsset) :
    glGap (depreciateAll d l).1 = 0 := by
  induction l with
  | nil =>
    simp [depreciateAll, glGap, totalAssetsQ, totalLiabEquityQ, netIncomeQ,
          acctD_nil, acctC_nil]
  | cons a rest ih =>
    by_cases h : a.usefulLife > 0 <;>
      simp [depreciateAll, h, glGap, totalAssetsQ, totalLiabEquityQ, netIncomeQ,
            acctD_cons, acctC_cons] at ih ⊢ <;>
      linarith

theorem glBalance_depreciation (s : SessionState) (d : Date) :
    glBalance (calculate_and_post_depreciation s d).1.general_ledger
      = glBalance s.general_ledger := by
  unfold calculate_and_post_depreciation
  split
  · rfl
  · split
    · rfl
    · simp [glBalance_append, deprBatch_balance]

theorem glGap_depreciation (s : SessionState) (d : Date) :
    glGap (calculate_and_post_depreciation s d).1.general_ledger
      = glGap s.general_ledger := by
  unfold calculate_and_post_depreciation
  split
  · rfl
  · split
    · rfl
    · simp [glGap_append, deprBatch_gap]

theorem inventory_upsert_gl (s : SessionState) (n : String) (q : Int)
    (uc sp : ℚ) (now : String) :
    (add_or_update_inventory s n q uc sp now).general_ledger
      = s.general_ledger := by
  unfold add_or_update_inventory
  split
  · split <;> rfl
  · rfl

theorem glBalance_applyOp (s : SessionState) (op : Op) :
    glBalance (applyOp s op).general_ledger = glBalance s.general_ledger := by
  cases op with
  | receivable d c t a m =>
    simp only [applyOp]
    split
    · exact glBalance_add_receivable s d c t a m
    · rfl
  | payable d v a m =>
    simp only [applyOp]
    split
    · exact glBalance_add_payable s d v a m
    · rfl
  | inventoryUpsert n q uc sp now =>
    simp only [applyOp, inventory_upsert_gl]
  | sale d i q c t now => exact glBalance_add_sale s d i q c t now
  | fixedAsset n cat loc d k v u => exact glBalance_add_fixed_asset s n cat loc d k v u
  | depreciationRun d => exact glBalance_depreciation s d

theorem glGap_applyOp (s : SessionState) (op : Op) :
    glGap (applyOp s op).general_ledger = glGap s.general_ledger := by
  cases op with
  | receivable d c t a m =>
    simp only [applyOp]
    split
    · exact glGap_add_receivable s d c t a m
    · rfl
  | payable d v a m =>
    simp only [applyOp]
    split
    · exact glGap_add_payable s d v a m
    · rfl
  | inventoryUpsert n q uc sp now =>
    simp only [applyOp, inventory_upsert_gl]
  | sale d i q c t now => exact glGap_add_sale s d i q c t now
  | fixedAsset n cat loc d k v u => exact glGap_add_fixed_asset s n cat loc d k v u
  | depreciationRun d => exact glGap_depreciation s d

theorem glBalance_foldl (ops : List Op) (s : SessionState) :
    glBalance (ops.foldl applyOp s).general_ledger
      = glBalance s.general_ledger := by
  induction ops generalizing s with
  | nil => rfl
  | cons op rest ih => rw [List.foldl_cons, ih, glBalance_applyOp]

theorem glGap_foldl (ops : List Op) (s : SessionState) :
    glGap (ops.foldl applyOp s).general_ledger = glGap s.general_ledger := by
  induction ops generalizing s with
  | nil => rfl
  | cons op rest ih => rw [List.foldl_cons, ih, glGap_applyOp]

theorem glBalance_runOps (ops : List Op) :
    glBalance (runOps ops).general_ledger = 0 := by
  rw [runOps, glBalance_foldl]
  simp [emptyState, glBalance, sumDebit, sumCredit]

theorem glGap_runOps (ops : List Op) :
    glGap (runOps ops).general_ledger = 0 := by
  rw [runOps, glGap_foldl]
  simp [emptyState, glGap, totalAssetsQ, totalLiabEquityQ, netIncomeQ, acctD, acctC]

/-- C1: for every sequence of posting operations run from the empty session
(failed postings are no-ops), the sum of the Debit column over the whole
general ledger equals the sum of the Credit column.  Quantifying over all
sequences covers every prefix, hence the invariant holds after every
operation; exact equality in ℚ implies the spec's 0.01 tolerance. -/
theorem ledger_always_balanced (ops : List Op) :
    sumDebit (runOps ops).general_ledger
      = sumCredit (runOps ops).general_ledger := by
  have h := glBalance_runOps ops
  unfold glBalance at h
  linarith

theorem income_statement_last (gl : List GLEntry) (h : gl ≠ []) :
    (((generate_income_statement gl).getLast?).map (fun r => r.amount)).getD 0
      = netIncomeQ gl := by
  unfold generate_income_statement
  rw [if_neg h]
  simp [netIncomeQ]

theorem balance_sheet_amounts (gl : List GLEntry) (h : gl ≠ []) :
    bsAmount (generate_balance_sheet gl) "Total Assets" = totalAssetsQ gl ∧
    bsAmount (generate_balance_sheet gl) "Total Liabilities & Equity"
      = totalLiabEquityQ gl := by
  unfold generate_balance_sheet
  rw [if_neg h]
  constructor
  · simp [bsAmount, totalAssetsQ]
  · simp [bsAmount, totalLiabEquityQ, income_statement_last gl h]

/-- C2: after any sequence of posting operations from the empty session, the
Balance Sheet generator's Total Assets amount equals its Total Liabilities &
Equity amount (exactly in ℚ, hence within the claimed 0.01). -/
theorem balance_sheet_identity (ops : List Op) :
    |bsAmount (generate_balance_sheet (runOps ops).general_ledger) "Total Assets"
      - bsAmount (generate_balance_sheet (runOps ops).general_ledger)
          "Total Liabilities & Equity"| ≤ 1/100 := by
  by_cases h : (runOps ops).general_ledger = []
  · rw [h]
    simp [generate_balance_sheet, bsAmount]
  · obtain ⟨h1, h2⟩ := balance_sheet_amounts _ h
    rw [h1, h2]
    have hg := glGap_runOps ops
    unfold glGap at hg
    rw [hg]
    norm_num

/-- C3: a POS sale of a known item in a quantity above the available stock
is rejected with an error message reporting the available quantity, and the
whole session state (inventory table and general ledger included) is
returned unchanged; a sale of an item missing from inventory is rejected
with the item-not-found error, likewise without any state mutation. -/
theorem pos_sale_rejection (s : SessionState) (d : Date) (item : String)
    (q : Int) (c t now : String) :
    (s.inventory.find? (fun r => r.item == item) = none →
      add_sale_record s d item q c t now
        = (s, Status.error, "Item not found in inventory.")) ∧
    (∀ row, s.inventory.find? (fun r => r.item == item) = some row →
      q > row.quantity →
      add_sale_record s d item q c t now
        = (s, Status.error,
            "Not enough stock. Only " ++ toString row.quantity
              ++ " units available.")) := by
  constructor
  · intro h
    unfold add_sale_record
    rw [h]
  · intro row h hq
    unfold add_sale_record
    rw [h]
    simp only [if_pos hq]

/-- Witness for C3 at concrete inputs: 20 Widgets requested with 7 in
stock, and a sale of an item absent from an empty inventory. -/
theorem pos_sale_rejection_witness :
    add_sale_record invState exDate "Widget" 20 "Bob" "Cash" "t9"
        = (invState, Status.error, "Not enough stock. Only 7 units available.") ∧
    add_sale_record emptyState exDate "Widget" 3 "Bob" "Cash" "t9"
        = (emptyState, Status.error, "Item not found in inventory.") := by
  constructor
  · have h := (pos_sale_rejection invState exDate "Widget" 20 "Bob" "Cash" "t9").2
      exItem (by rfl) (by decide)
    rw [h]
    rfl
  · have h := (pos_sale_rejection emptyState exDate "Widget" 3 "Bob" "Cash" "t9").1
      (by rfl)
    rw [h]

theorem depreciateAll_fst (d : Date) (l : List FixedAsset) :
    (depreciateAll d l).1
      = (l.filter (fun a => a.usefulLife > 0)).flatMap (deprPair d) := by
  induction l with
  | nil => rfl
  | cons a rest ih =>
    by_cases h : a.usefulLife > 0 <;>
      simp [depreciateAll, List.filter_cons, h, deprPair, ih]

theorem depreciateAll_snd (d : Date) (l : List FixedAsset) :
    (depreciateAll d l).2 = l.map deprUpdate := by
  induction l with
  | nil => rfl
  | cons a rest ih =>
    by_cases h : a.usefulLife > 0 <;>
      simp [depreciateAll, deprUpdate, h, ih]

/-- C4: the annual depreciation run (i) warns and leaves the session
untouched when the register is empty; (ii) warns and leaves the session
untouched when the GL already holds a Depreciation Expense entry dated in
the as-of year; (iii) otherwise posts, in register order, exactly one
Depreciation Expense debit / Accumulated Depreciation credit pair of
`(cost − salvage)/usefulLife` per asset with useful life > 0 (assets with
useful life ≤ 0 contribute nothing) and adds the same amount to each such
asset's accumulated depreciation.  After a first run that posted anything,
the year guard makes a second same-year call a warning no-op. -/
theorem depreciation_run_spec (s : SessionState) (d : Date) :
    (s.fixed_assets = [] →
      calculate_and_post_depreciation s d
        = (s, Status.warning, "No fixed assets to depreciate.")) ∧
    (s.fixed_assets ≠ [] →
      deprAlreadyPosted s.general_ledger d.year = true →
      calculate_and_post_depreciation s d
        = (s, Status.warning,
            "Depreciation for " ++ toString d.year ++ " has already been posted.")) ∧
    (s.fixed_assets ≠ [] →
      deprAlreadyPosted s.general_ledger d.year = false →
      calculate_and_post_depreciation s d
        = ({ s with
              general_ledger := s.general_ledger
                ++ (s.fixed_assets.filter (fun a => a.usefulLife > 0)).flatMap
                    (deprPair d),
              fixed_assets := s.fixed_assets.map deprUpdate },
           Status.success,
           "Depreciation for " ++ toString d.year
             ++ " calculated and posted for all assets.")) := by
  refine ⟨fun h => ?_, fun h1 h2 => ?_, fun h1 h2 => ?_⟩
  · unfold calculate_and_post_depreciation
    rw [if_pos h]
  · unfold calculate_and_post_depreciation
    rw [if_neg h1, if_pos h2]
  · unfold calculate_and_post_depreciation
    rw [if_neg h1]
    rw [h2]
    simp [depreciateAll_fst, depreciateAll_snd]

/-- Witness for C4: one asset of cost 1200, salvage 200, life 5 on an empty
ledger; the run succeeds, posts the 200/200 pair and raises the asset's
accumulated depreciation to 200; the same-year guard then fires on the
resulting ledger. -/
theorem depreciation_run_witness :
    calculate_and_post_depreciation exAssetState exDate
      = ({ exAssetState with
            general_ledger :=
              [⟨exDate, "Depreciation Expense", 200, 0, "Annual depreciation for Truck"⟩,
               ⟨exDate, "Accumulated Depreciation", 0, 200, "Annual depreciation for Truck"⟩],
            fixed_assets := [{ exAsset with accumulatedDepreciation := 200 }] },
         Status.success,
         "Depreciation for 2024 calculated and posted for all assets.") ∧
    deprAlreadyPosted
      [⟨exDate, "Depreciation Expense", (200 : ℚ), 0, "Annual depreciation for Truck"⟩,
       ⟨exDate, "Accumulated Depreciation", 0, (200 : ℚ), "Annual depreciation for Truck"⟩]
      exDate.year = true := by
  constructor
  · have h := (depreciation_run_spec exAssetState exDate).2.2
      (by simp [exAssetState]) (by rfl)
    rw [h]
    norm_num [exAssetState, exAsset, emptyState, deprPair, deprUpdate, exDate]
    exact ⟨rfl, rfl⟩
  · rfl

/-- C6 counterexample: the data-model precondition (cost > 0, salvage ≥ 0,
useful life > 0) does not rule out salvage > cost, and the code never
validates it; for an asset of cost 100, salvage 200, life 5 a single
depreciation run drives accumulated depreciation to −20 < 0, so
accumulated depreciation neither stays ≥ 0 nor is non-decreasing. -/
theorem accum_depreciation_counterexample :
    (runOps [Op.fixedAsset "Truck" "Vehicle" "HQ" exDate 100 200 5,
             Op.depreciationRun exDate]).fixed_assets.map
        (fun a => a.accumulatedDepreciation) = [-20] ∧ ((-20 : ℚ) < 0) := by
  constructor
  · simp +decide [runOps, applyOp, add_fixed_asset, post_to_gl, generate_asset_tag,
      emptyState, calculate_and_post_depreciation, deprAlreadyPosted,
      depreciateAll, exDate]
    norm_num
  · norm_num

theorem forall₂_trans_of (R : FixedAsset → FixedAsset → Prop)
    (hR : ∀ a b c, R a b → R b c → R a c) :
    ∀ {x y z : List FixedAsset},
      List.Forall₂ R x y → List.Forall₂ R y z → List.Forall₂ R x z := by
  intro x y z h1
  induction h1 generalizing z with
  | nil =>
    intro h2
    cases h2
    exact .nil
  | cons hab h ih =>
    intro h2
    cases h2 with
    | cons hbc h2' => exact .cons (hR _ _ _ hab hbc) (ih h2')

theorem deprPreserves_trans (a b c : FixedAsset) :
    deprPreserves a b → deprPreserves b c → deprPreserves a c := by
  rintro ⟨hc1, hs1, hu1, hm1⟩ ⟨hc2, hs2, hu2, hm2⟩
  refine ⟨hc2.trans hc1, hs2.trans hs1, hu2.trans hu1, fun hle => ?_⟩
  have := hm2 (by rw [hs1, hc1]; exact hle)
  exact le_trans (hm1 hle) this

theorem deprRunRel_refl (a : FixedAsset) : deprRunRel a a :=
  ⟨rfl, rfl, rfl, Or.inl rfl, fun _ => le_refl _⟩

theorem deprRunRel_update (a : FixedAsset) : deprRunRel a (deprUpdate a) := by
  unfold deprUpdate deprRunRel
  by_cases h : a.usefulLife > 0
  · rw [if_pos h]
    refine ⟨rfl, rfl, rfl, Or.inr ⟨h, rfl⟩, fun hle => ?_⟩
    have hul : (0 : ℚ) < (a.usefulLife : ℚ) := by exact_mod_cast h
    have : 0 ≤ (a.cost - a.salvageValue) / (a.usefulLife : ℚ) :=
      div_nonneg (by linarith) (le_of_lt hul)
    simp only []
    linarith
  · rw [if_neg h]
    exact deprRunRel_refl a

theorem forall₂_deprRunRel_self (l : List FixedAsset) :
    List.Forall₂ deprRunRel l l := by
  induction l with
  | nil => exact .nil
  | cons a rest ih => exact .cons (deprRunRel_refl a) ih

theorem forall₂_deprRunRel_update (l : List FixedAsset) :
    List.Forall₂ deprRunRel l (l.map deprUpdate) := by
  induction l with
  | nil => exact .nil
  | cons a rest ih => exact .cons (deprRunRel_update a) ih

theorem deprRunRel_imp_preserves (a b : FixedAsset) :
    deprRunRel a b → deprPreserves a b := by
  rintro ⟨h1, h2, h3, _, h5⟩
  exact ⟨h1, h2, h3, h5⟩

theorem depreciation_forall₂_run (s : SessionState) (d : Date) :
    List.Forall₂ deprRunRel s.fixed_assets
      ((calculate_and_post_depreciation s d).1.fixed_assets) := by
  unfold calculate_and_post_depreciation
  split
  · exact forall₂_deprRunRel_self _
  · split
    · exact forall₂_deprRunRel_self _
    · simpa [depreciateAll_snd] using forall₂_deprRunRel_update s.fixed_assets

/-- C6 as amended: for every fixed asset, accumulated depreciation is
initialized to 0 on acquisition; one depreciation run leaves every asset's
static fields unchanged and either leaves its accumulated depreciation
unchanged or (for useful life > 0) adds exactly `(cost − salvage)/
usefulLife`; and — **provided additionally that salvage value ≤ cost**,
which the original claim's precondition omitted — accumulated depreciation
is non-decreasing (hence stays ≥ 0 from its initial 0) across every
sequence of annual depreciation runs. -/
theorem accum_depreciation_amended :
    (∀ (s : SessionState) (n cat loc : String) (d : Date) (k v : ℚ) (u : Int),
      n ≠ "" → k > 0 → u > 0 → cat ≠ "" → loc ≠ "" →
      (add_fixed_asset s n cat loc d k v u).fixed_assets
        = s.fixed_assets
          ++ [⟨generate_asset_tag "YOUR_COMPANY" cat d.year loc, n, cat, loc, d,
               k, v, u, 0⟩]) ∧
    (∀ (s : SessionState) (d : Date),
      List.Forall₂ deprRunRel s.fixed_assets
        ((calculate_and_post_depreciation s d).1.fixed_assets)) ∧
    (∀ (s : SessionState) (ds : List Date),
      List.Forall₂ deprPreserves s.fixed_assets
        ((runDeprs s ds).fixed_assets)) := by
  refine ⟨fun s n cat loc d k v u h1 h2 h3 h4 h5 => ?_,
          depreciation_forall₂_run, fun s ds => ?_⟩
  · unfold add_fixed_asset
    rw [if_pos ⟨h1, h2, h3, h4, h5⟩]
    rfl
  · induction ds generalizing s with
    | nil =>
      exact (forall₂_deprRunRel_self s.fixed_assets).imp
        deprRunRel_imp_preserves
    | cons d rest ih =>
      have h1 := (depreciation_forall₂_run s d).imp
        deprRunRel_imp_preserves
      have h2 := ih ((calculate_and_post_depreciation s d).1)
      exact forall₂_trans_of deprPreserves deprPreserves_trans h1 h2

/-- Witness for the amended C6: acquiring an asset of cost 100, salvage
200, life 5 registers it with accumulated depreciation 0, and one
depreciation run on the cost-1200/salvage-200 sample asset satisfies the
per-asset preservation relation. -/
theorem accum_depreciation_amended_witness :
    (add_fixed_asset emptyState "Truck" "Vehicle" "HQ" exDate 100 200 5).fixed_assets
      = [⟨generate_asset_tag "YOUR_COMPANY" "Vehicle" exDate.year "HQ",
          "Truck", "Vehicle", "HQ", exDate, 100, 200, 5, 0⟩] ∧
    List.Forall₂ deprPreserves exAssetState.fixed_assets
      ((runDeprs exAssetState [exDate]).fixed_assets) := by
  constructor
  · exact accum_depreciation_amended.1 emptyState "Truck" "Vehicle" "HQ" exDate
      100 200 5 (by decide) (by norm_num) (by decide) (by decide) (by decide)
  · exact accum_depreciation_amended.2.2 exAssetState [exDate]


theorem updateFirst_length (p : α → Bool) (f : α → α) (l : List α) :
    (updateFirst p f l).length = l.length := by
  induction l with
  | nil => rfl
  | cons x xs ih => by_cases h : p x <;> simp [updateFirst, h, ih]

theorem updateFirst_map_names (p : InventoryItem → Bool)
    (f : InventoryItem → InventoryItem) (hf : ∀ r, (f r).item = r.item)
    (l : List InventoryItem) :
    (updateFirst p f l).map (fun r => r.item) = l.map (fun r => r.item) := by
  induction l with
  | nil => rfl
  | cons x xs ih => by_cases h : p x <;> simp [updateFirst, h, ih, hf]

theorem invNamesDistinct_iff_map (l : List InventoryItem) :
    invNamesDistinct l ↔ (l.map (fun r => r.item)).Pairwise (fun a b => a ≠ b) := by
  rw [invNamesDistinct, List.pairwise_map]

theorem invNamesDistinct_updateFirst (p : InventoryItem → Bool)
    (f : InventoryItem → InventoryItem) (hf : ∀ r, (f r).item = r.item)
    (l : List InventoryItem) (h : invNamesDistinct l) :
    invNamesDistinct (updateFirst p f l) := by
  rw [invNamesDistinct_iff_map, updateFirst_map_names p f hf]
  rw [invNamesDistinct_iff_map] at h
  exact h

theorem updateFirst_nonmatching (p : α → Bool) (f : α → α) :
    ∀ (l : List α) (r : α), r ∈ l → p r = false → r ∈ updateFirst p f l := by
  intro l
  induction l with
  | nil => intro r hr _; cases hr
  | cons x xs ih =>
    intro r hr hp
    rcases List.mem_cons.mp hr with h | h
    · subst h
      rw [updateFirst, if_neg (by simp [hp])]
      exact List.mem_cons_self _ _
    · by_cases hx : p x
      · rw [updateFirst, if_pos hx]
        exact List.mem_cons_of_mem _ h
      · rw [updateFirst, if_neg hx]
        exact List.mem_cons_of_mem _ (ih r h hp)

theorem updateFirst_matching (n : String) (f : InventoryItem → InventoryItem) :
    ∀ (l : List InventoryItem), invNamesDistinct l →
      ∀ r ∈ updateFirst (fun r => r.item == n) f l, r.item = n →
        ∃ x, x ∈ l ∧ x.item = n ∧ r = f x := by
  intro l
  induction l with
  | nil => intro _ r hr; cases hr
  | cons x xs ih =>
    intro hd r hr hrn
    rw [invNamesDistinct, List.pairwise_cons] at hd
    by_cases hx : x.item = n
    · rw [updateFirst, if_pos (by simp [hx])] at hr
      rcases List.mem_cons.mp hr with h | h
      · exact ⟨x, List.mem_cons_self x xs, hx, h⟩
      · exact absurd (hrn.trans hx.symm) (fun he => hd.1 r h he.symm)
    · rw [updateFirst, if_neg (by simp [hx])] at hr
      rcases List.mem_cons.mp hr with h | h
      · subst h
        exact absurd hrn hx
      · obtain ⟨y, hy, hyn, hry⟩ := ih hd.2 r h hrn
        exact ⟨y, List.mem_cons_of_mem _ hy, hyn, hry⟩


theorem receivable_inventory (s : SessionState) (d : Date) (c t : String)
    (a : ℚ) (m : String) :
    (add_receivable_record s d c t a m).inventory = s.inventory := by
  unfold add_receivable_record
  split <;> rfl

theorem payable_inventory (s : SessionState) (d : Date) (v : String)
    (a : ℚ) (m : String) :
    (add_payable_record s d v a m).inventory = s.inventory := rfl

theorem fixed_asset_inventory (s : SessionState) (n cat loc : String)
    (d : Date) (k v : ℚ) (u : Int) :
    (add_fixed_asset s n cat loc d k v u).inventory = s.inventory := by
  unfold add_fixed_asset
  split <;> rfl

theorem depreciation_inventory (s : SessionState) (d : Date) :
    (calculate_and_post_depreciation s d).1.inventory = s.inventory := by
  unfold calculate_and_post_depreciation
  split
  · rfl
  · split <;> rfl

theorem sale_inventory (s : SessionState) (d : Date) (i : String) (q : Int)
    (c t now : String) :
    (add_sale_record s d i q c t now).1.inventory = s.inventory ∨
    (add_sale_record s d i q c t now).1.inventory
      = updateFirst (fun r => r.item == i)
          (fun r => { r with quantity := r.quantity - q, lastUpdated := now })
          s.inventory := by
  unfold add_sale_record
  split
  · exact Or.inl rfl
  · split
    · exact Or.inl rfl
    · right
      split <;> rfl

theorem invNames_applyOp (s : SessionState) (op : Op)
    (h : invNamesDistinct s.inventory) :
    invNamesDistinct (applyOp s op).inventory := by
  cases op with
  | receivable d c t a m =>
    simp only [applyOp]
    split
    · rw [receivable_inventory]; exact h
    · exact h
  | payable d v a m =>
    simp only [applyOp]
    split
    · rw [payable_inventory]; exact h
    · exact h
  | inventoryUpsert n q uc sp now =>
    simp only [applyOp]
    unfold add_or_update_inventory
    split
    · split
      · exact invNamesDistinct_updateFirst (fun r => r.item == n)
          (fun r => { r with quantity := q, unitCost := uc, sellingPrice := sp, lastUpdated := now })
          (fun r => rfl) s.inventory h
      · rename_i hval hnone
        refine List.pairwise_append.mpr ⟨h, by simp, ?_⟩
        intro a ha b hb
        rw [List.mem_singleton] at hb
        subst hb
        intro he
        exact hnone (List.any_eq_true.mpr ⟨a, ha, by simp [he]⟩)
    · exact h
  | sale d i q c t now =>
    have hs := sale_inventory s d i q c t now
    simp only [applyOp]
    rcases hs with h1 | h1
    · rw [h1]; exact h
    · rw [h1]
      exact invNamesDistinct_updateFirst (fun r => r.item == i)
        (fun r => { r with quantity := r.quantity - q, lastUpdated := now })
        (fun r => rfl) s.inventory h
  | fixedAsset n cat loc dd k v u =>
    simp only [applyOp]
    rw [fixed_asset_inventory]
    exact h
  | depreciationRun d =>
    simp only [applyOp]
    rw [depreciation_inventory]
    exact h

theorem invNames_foldl (ops : List Op) (s : SessionState)
    (h : invNamesDistinct s.inventory) :
    invNamesDistinct (ops.foldl applyOp s).inventory := by
  induction ops generalizing s with
  | nil => exact h
  | cons op rest ih => exact ih _ (invNames_applyOp s op h)

/-- C7: after any event history from the empty session the inventory table
never holds two rows with the same item name; and re-adding an existing
name through the inventory form overwrites that row in place — the row
count is unchanged, the (unique) row with that name now carries exactly
the new quantity, unit cost, selling price and timestamp, and every other
row survives untouched. -/
theorem inventory_upsert_unique (ops : List Op) (n : String) (q : Int)
    (uc sp : ℚ) (now : String) :
    invNamesDistinct (runOps ops).inventory ∧
    (n ≠ "" → q ≥ 0 → uc ≥ 0 → sp ≥ 0 →
      ((runOps ops).inventory.any (fun r => r.item == n)) = true →
      ((add_or_update_inventory (runOps ops) n q uc sp now).inventory.length
          = (runOps ops).inventory.length ∧
       (∀ r ∈ (add_or_update_inventory (runOps ops) n q uc sp now).inventory,
          r.item = n → r = ⟨n, q, uc, sp, now⟩) ∧
       (∀ r ∈ (runOps ops).inventory, r.item ≠ n →
          r ∈ (add_or_update_inventory (runOps ops) n q uc sp now).inventory))) := by
  have hd : invNamesDistinct (runOps ops).inventory :=
    invNames_foldl ops emptyState List.Pairwise.nil
  refine ⟨hd, fun h1 h2 h3 h4 h5 => ?_⟩
  unfold add_or_update_inventory
  rw [if_pos ⟨h1, h2, h3, h4⟩, if_pos h5]
  refine ⟨updateFirst_length _ _ _, ?_, ?_⟩
  · intro r hr hrn
    obtain ⟨x, hx, hxn, hrx⟩ := updateFirst_matching n _ _ hd r hr hrn
    subst hrx
    cases x
    simp only at hxn
    subst hxn
    rfl
  · intro r hr hrn
    exact updateFirst_nonmatching _ _ _ r hr (by simp [hrn])

/-- Witness for C7: with 10 Widgets stocked, re-adding "Widget" with
quantity 4, cost 6, price 9 keeps the row count unchanged. -/
theorem inventory_upsert_unique_witness :
    (add_or_update_inventory (runOps exOps7) "Widget" 4 6 9 "t2").inventory.length
      = (runOps exOps7).inventory.length := by
  exact ((inventory_upsert_unique exOps7 "Widget" 4 6 9 "t2").2
    (by decide) (by decide) (by norm_num) (by norm_num) (by rfl)).1


/-- C8: for every non-empty ledger the Income Statement generator returns,
in order, Revenue (credits to Sales Revenue), less COGS (debits to Cost of
Goods Sold), Gross Profit = Revenue − COGS, less Operating Expenses
(debits to Expenses), less Depreciation Expense (debits to Depreciation
Expense), and Net Income = Gross Profit − Operating Expenses −
Depreciation Expense; and after the spec's Scenario 2 history the Gross
Profit line reads 9. -/
theorem income_statement_lines (gl : List GLEntry) (h : gl ≠ []) :
    generate_income_statement gl =
      [⟨"Sales Revenue", acctC gl "Sales Revenue"⟩,
       ⟨"Less: Cost of Goods Sold", -(acctD gl "Cost of Goods Sold")⟩,
       ⟨"Gross Profit", acctC gl "Sales Revenue" - acctD gl "Cost of Goods Sold"⟩,
       ⟨"Less: Operating Expenses", -(acctD gl "Expenses")⟩,
       ⟨"Less: Depreciation Expense", -(acctD gl "Depreciation Expense")⟩,
       ⟨"Net Income (Loss)",
         (acctC gl "Sales Revenue" - acctD gl "Cost of Goods Sold")
           - acctD gl "Expenses" - acctD gl "Depreciation Expense"⟩] ∧
    stmtAmount (generate_income_statement
        (runOps scenario2Ops).general_ledger) "Gross Profit" = 9 := by
  constructor
  · unfold generate_income_statement
    rw [if_neg h]
    simp only [sub_sub, add_assoc]
  · simp +decide [scenario2Ops, runOps, applyOp, add_or_update_inventory,
      add_sale_record, updateFirst, post_to_gl, emptyState, exDate,
      generate_income_statement, acctD, acctC, stmtAmount]
    norm_num

/-- Witness for C8 at a concrete one-entry ledger. -/
theorem income_statement_lines_witness :
    generate_income_statement [⟨exDate, "Cash", 100, 0, "m"⟩] =
      [⟨"Sales Revenue", acctC [⟨exDate, "Cash", 100, 0, "m"⟩] "Sales Revenue"⟩,
       ⟨"Less: Cost of Goods Sold",
         -(acctD [⟨exDate, "Cash", 100, 0, "m"⟩] "Cost of Goods Sold")⟩,
       ⟨"Gross Profit",
         acctC [⟨exDate, "Cash", 100, 0, "m"⟩] "Sales Revenue"
           - acctD [⟨exDate, "Cash", 100, 0, "m"⟩] "Cost of Goods Sold"⟩,
       ⟨"Less: Operating Expenses", -(acctD [⟨exDate, "Cash", 100, 0, "m"⟩] "Expenses")⟩,
       ⟨"Less: Depreciation Expense",
         -(acctD [⟨exDate, "Cash", 100, 0, "m"⟩] "Depreciation Expense")⟩,
       ⟨"Net Income (Loss)",
         (acctC [⟨exDate, "Cash", 100, 0, "m"⟩] "Sales Revenue"
             - acctD [⟨exDate, "Cash", 100, 0, "m"⟩] "Cost of Goods Sold")
           - acctD [⟨exDate, "Cash", 100, 0, "m"⟩] "Expenses"
           - acctD [⟨exDate, "Cash", 100, 0, "m"⟩] "Depreciation Expense"⟩] ∧
    stmtAmount (generate_income_statement
        (runOps scenario2Ops).general_ledger) "Gross Profit" = 9 :=
  income_statement_lines [⟨exDate, "Cash", 100, 0, "m"⟩] (by simp)


/-- C9: `calculate_ratios` substitutes the documented fallbacks instead of
dividing by zero — margins are 0 when revenue is 0; current and quick
ratios are ∞ when current liabilities (the Accounts Payable amount) are 0;
debt-to-equity is ∞ when owner equity is 0; AR-turnover-days is 0 when
receivables or revenue are 0; and on the Scenario 5 snapshots the gross
profit margin is 0.6 = 3/5 and the current ratio is ∞. -/
theorem ratio_fallbacks (is_df bs_df : List StmtRow) :
    (itemSum is_df "Sales Revenue" = 0 →
      (calculate_ratios is_df bs_df).grossProfitMargin = RVal.fin 0 ∧
      (calculate_ratios is_df bs_df).netProfitMargin = RVal.fin 0) ∧
    (itemSum bs_df "Accounts Payable" = 0 →
      (calculate_ratios is_df bs_df).currentRatio = RVal.inf ∧
      (calculate_ratios is_df bs_df).quickRatio = RVal.inf) ∧
    (itemSum bs_df ownersEquityLabel = 0 →
      (calculate_ratios is_df bs_df).debtToEquity = RVal.inf) ∧
    (itemSum bs_df "Accounts Receivable" = 0 ∨ itemSum is_df "Sales Revenue" = 0 →
      (calculate_ratios is_df bs_df).arTurnoverDays = RVal.fin 0) ∧
    (calculate_ratios scenario5IS scenario5BS).grossProfitMargin = RVal.fin (3/5) ∧
    (calculate_ratios scenario5IS scenario5BS).currentRatio = RVal.inf := by
  refine ⟨fun h => ?_, fun h => ?_, fun h => ?_, fun h => ?_, ?_, ?_⟩
  · constructor <;> simp [calculate_ratios, h]
  · constructor <;> simp [calculate_ratios, h]
  · simp [calculate_ratios, h]
  · simp only [calculate_ratios]
    rw [if_pos h]
  · simp +decide [calculate_ratios, itemSum, scenario5IS, scenario5BS]
    norm_num
  · simp +decide [calculate_ratios, itemSum, scenario5IS, scenario5BS]

/-- Witness for C9: the Scenario 5 snapshot has zero Accounts Payable, so
the current ratio is ∞; an empty income statement has zero revenue, so the
gross profit margin falls back to 0. -/
theorem ratio_fallbacks_witness :
    (calculate_ratios scenario5IS scenario5BS).currentRatio = RVal.inf ∧
    (calculate_ratios [] scenario5BS).grossProfitMargin = RVal.fin 0 := by
  constructor
  · exact ((ratio_fallbacks scenario5IS scenario5BS).2.1
      (by simp +decide [itemSum, scenario5BS])).1
  · exact ((ratio_fallbacks [] scenario5BS).1 (by simp [itemSum])).1


theorem forecastStep_gap (g cp op : ℚ) (p : FPrev) :
    fprevGap (forecastStep g cp op p) = fprevGap p := by
  simp [forecastStep, fprevGap]
  ring

theorem forecastLoop_bs_gap (g cp op : ℚ) (ny : Int) :
    ∀ (k : Nat) (i : Int) (p : FPrev),
      ∀ row ∈ (forecastLoop g cp op ny k i p).2,
        row.totalAssets - row.totalLiabilitiesEquity = fprevGap p := by
  intro k
  induction k with
  | zero =>
    intro i p row hrow
    simp [forecastLoop] at hrow
  | succ k ih =>
    intro i p row hrow
    rw [forecastLoop] at hrow
    simp only [List.mem_cons] at hrow
    rcases hrow with h | h
    · subst h
      rw [← forecastStep_gap g cp op p]
      simp [forecastBSRowOf, fprevGap]
    · rw [ih (i + 1) (forecastStep g cp op p) row h, forecastStep_gap]

theorem itemSum_eq_zero_of_not_any (l : List StmtRow) (lbl : String)
    (h : ¬ (l.any (fun r => r.item == lbl)) = true) : itemSum l lbl = 0 := by
  have hnil : l.filter (fun r => r.item == lbl) = [] := by
    rw [List.filter_eq_nil_iff]
    intro a ha hb
    exact h (List.any_eq_true.mpr ⟨a, ha, hb⟩)
  rw [itemSum, hnil]
  rfl

/-- C10: `forecast_financials` preserves the balance-sheet identity gap —
every projected year's Total Assets minus Total Liabilities & Equity
equals the baseline snapshot's (Cash + Accounts Receivable + Inventory +
Fixed Assets (Net)) − (Accounts Payable + Long-term Debt + Owner's
Equity), exactly; in particular a balanced upload forecasts balanced
sheets in every year. -/
theorem forecast_preserves_gap (is_df bs_df : List StmtRow) (years : Nat)
    (g cp op : ℚ) (nowYear : Int) (fis : List ForecastISRow)
    (fbs : List ForecastBSRow)
    (hf : forecast_financials is_df bs_df years g cp op nowYear
        = some (fis, fbs)) :
    ∀ row ∈ fbs,
      row.totalAssets - row.totalLiabilitiesEquity = baselineGap bs_df := by
  unfold forecast_financials at hf
  split at hf
  · cases hf
  · injection hf with hf
    intro row hrow
    have h2 := congrArg Prod.snd hf
    dsimp only at h2
    rw [← h2] at hrow
    rw [forecastLoop_bs_gap g cp op nowYear years 1 _ row hrow]
    unfold fprevGap baselineGap
    dsimp only
    by_cases hlt : (bs_df.any (fun r => r.item == "Long-term Debt")) = true
    · rw [if_pos hlt]
    · rw [if_neg hlt, itemSum_eq_zero_of_not_any bs_df "Long-term Debt" hlt]

/-- Witness for C10: one forecast year from the Scenario 5 baseline (5%
growth, COGS 40%, OpEx 30%): the projected 2026 balance sheet's identity
gap equals the baseline gap (here 0 — the upload balances, and so does the
forecast). -/
theorem forecast_preserves_gap_witness :
    exForecastBSRow.totalAssets - exForecastBSRow.totalLiabilitiesEquity
      = baselineGap scenario5BS := by
  have hf : forecast_financials scenario5IS scenario5BS 1 5 40 30 2025
      = some ([exForecastISRow], [exForecastBSRow]) := by
    simp +decide [forecast_financials, forecastLoop, forecastStep,
      forecastISRowOf, forecastBSRowOf, itemSum, scenario5IS, scenario5BS,
      exForecastISRow, exForecastBSRow]
    norm_num
  exact forecast_preserves_gap scenario5IS scenario5BS 1 5 40 30 2025
    [exForecastISRow] [exForecastBSRow] hf exForecastBSRow
    (List.mem_singleton.mpr rfl)


/-- C5 (evidence of the divergence): acquiring a fixed asset of cost 1200
posts the Cash credit with memo "Cash payment for Truck"; that memo
contains neither the capital-P "Payment" nor "Acquisition" substring the
cash-flow classifier greps for, so `generate_cash_flow_statement` reports
Net Cash from Investing Activities = 0 — not the −1200 the claim (and the
classifier's own intent) calls for. -/
theorem cash_flow_investing_missing :
    stmtAmount (generate_cash_flow_statement
        (runOps [Op.fixedAsset "Truck" "Vehicle" "HQ" exDate 1200 0 5]).general_ledger)
      "Net Cash from Investing Activities" = 0 ∧ (0 : ℚ) ≠ -1200 := by
  constructor
  · simp +decide [runOps, applyOp, add_fixed_asset, post_to_gl,
      generate_asset_tag, emptyState, generate_cash_flow_statement,
      strContains, stmtAmount, exDate]
  · norm_num

end AccountingApp
